import Mathlib

/-!
Verification of `Excel_naar_long_objectenkolom.py`: a pandas pipeline that
reads hospital microbiology workbooks, reshapes each worksheet to a long
table, derives resistance indicator flags, aggregates, drops zero-valued
observations and partitions rows by exclusion rules.

The embedding works over an explicit cell/dataframe model:
* `Cell` models a pandas cell (NaN, text, integer, timestamp).
* `DF` models the frame returned by
  `pd.read_excel(xls, sheet_name=sheet, skiprows=2).iloc[:, 2:]`
  (line 80 of the source): a header row plus data rows.
* All string work is done on `List Char` with structural recursion so that
  every definition evaluates by kernel reduction.
-/

namespace ZH

/-- A pandas cell: missing value (NaN), text, integer, or timestamp
(year, month, day). Floats do not occur in the modelled worksheets. -/
inductive Cell where
  | na : Cell
  | str : String → Cell
  | num : Int → Cell
  | date : Int → Nat → Nat → Cell
deriving DecidableEq

def isNa : Cell → Bool
  | .na => true
  | _ => false

instance {ε α : Type} [DecidableEq ε] [DecidableEq α] : DecidableEq (Except ε α) := fun a b =>
  match a, b with
  | .ok x, .ok y => if h : x = y then isTrue (by rw [h]) else isFalse (by simp [h])
  | .error x, .error y => if h : x = y then isTrue (by rw [h]) else isFalse (by simp [h])
  | .ok _, .error _ => isFalse (by simp)
  | .error _, .ok _ => isFalse (by simp)

/-! ### String helpers (kernel-computable stand-ins for pandas string ops) -/

/-- The non-breaking space character `\xa0`. -/
def nbspChar : Char := Char.ofNat 160

/-- `x.replace('\xa0', ' ')` on a text cell (source line 85); other cells
are returned unchanged (`isinstance(x, str)` guard). -/
def nbspFix : Cell → Cell
  | .str s => .str ⟨s.data.map (fun c => if c = nbspChar then ' ' else c)⟩
  | c => c

/-- Strip leading and trailing whitespace; models Python `str.strip()`
(line 83 `df.columns.str.strip()` and line 88/90 `.str.strip()`). -/
def strTrim (s : String) : String :=
  ⟨((s.data.dropWhile Char.isWhitespace).reverse.dropWhile Char.isWhitespace).reverse⟩

/-- `str(x)` / `.astype(str)`: NaN renders as the text `nan`, a timestamp
renders `YYYY-MM-DD HH:MM:SS` style. -/
def cellToStr : Cell → String
  | .na => "nan"
  | .str s => s
  | .num n => toString n
  | .date y m d => toString y ++ "-" ++ toString m ++ "-" ++ toString d ++ " 00:00:00"

/-- Lines 88/90:
`.astype(str).replace('nan', '').str.strip().replace('', np.nan)`.
`Series.replace` with scalars replaces whole values that compare equal, so
exactly the text `nan` (pandas' rendering of a missing value) becomes
empty, then the trimmed-empty result becomes NaN again. -/
def normalizeCell (c : Cell) : Cell :=
  let s0 := cellToStr c
  let s1 := if s0 = "nan" then "" else s0
  let s2 := strTrim s1
  if s2 = "" then Cell.na else Cell.str s2

/-- Read an organism/resistance cell into the `Option String` carried by a
long record: NaN is absent, anything else is its text. -/
def asOpt : Cell → Option String
  | .na => none
  | c => some (cellToStr c)

/-! ### Case-insensitive pattern search

`Series.str.contains(pat, case=False, na=False)` performs an unanchored
regular-expression search. The patterns appearing in the source are
literals except for the character `.` (in `Fluoresc. preparaat` and
`C.psittaci`), which matches any character; alternation `a|b` is modelled
as a list of patterns tried with `List.any`. -/

def charMatch (p c : Char) : Bool := (p == '.') || (p.toLower == c.toLower)

/-- Does the pattern match at the head of the text? -/
def matchHere : List Char → List Char → Bool
  | [], _ => true
  | _ :: _, [] => false
  | p :: ps, c :: cs => charMatch p c && matchHere ps cs

/-- Does the pattern match at some position of the text (`re.search`)? -/
def searchFrom (pat : List Char) : List Char → Bool
  | [] => matchHere pat []
  | c :: cs => matchHere pat (c :: cs) || searchFrom pat cs

/-- `re.search(pat, hay, re.IGNORECASE) is not None`. -/
def reContainsCI (hay pat : String) : Bool := searchFrom pat.data hay.data

/-- `series.str.contains('|'.join(pats), case=False, na=False)` applied to
one value: a missing value yields `false`, text is searched for any of the
alternatives. -/
def strContainsOpt (o : Option String) (pats : List String) : Bool :=
  match o with
  | none => false
  | some s => pats.any (fun p => reContainsCI s p)

/-! ### Indicator flags (source lines 109-113) -/

structure Flags where
  brmo : Bool
  esbl : Bool
  vre : Bool
  mrsa : Bool
  carba : Bool
deriving DecidableEq

def indicatorFlags (o : Option String) : Flags :=
  { brmo := strContainsOpt o ["BRMO", "ESBL", "VRE", "MRSA", "CARBA"]
    esbl := strContainsOpt o ["ESBL"]
    vre := strContainsOpt o ["VRE"]
    mrsa := strContainsOpt o ["MRSA"]
    carba := strContainsOpt o ["CARBA"] }

/-- One row of the long-format output (columns of `long_df`). -/
structure LongRecord where
  organisme : Option String
  resistentie : Option String
  afdeling : String
  waarde : Cell
  brmo : Bool
  esbl : Bool
  vre : Bool
  mrsa : Bool
  carba : Bool
  jaar : Int
  maand : Int
deriving DecidableEq

/-! ### The worksheet frame and `verwerk_sheet` (source lines 78-121) -/

/-- The frame produced by line 80: header labels and data rows of the
region starting at worksheet row 3, column C. -/
structure DF where
  headers : List String
  rows : List (List Cell)

/-- Pad or truncate a row to the frame width (pandas frames are
rectangular; absent cells are NaN). -/
def padTrunc (n : Nat) (r : List Cell) : List Cell := (r ++ List.replicate n Cell.na).take n

/-- Line 82, first half: `df.dropna(how='all')` — drop rows whose cells
are all NaN. -/
def prunedRows (df : DF) : List (List Cell) :=
  (df.rows.map (padTrunc df.headers.length)).filter (fun r => r.any (fun c => !(isNa c)))

/-- Column indices that survive `df.dropna(axis=1, how='all')` (line 82,
second half): a column is kept iff some remaining row has a value there. -/
def keptIdx (df : DF) : List Nat :=
  (List.range df.headers.length).filter
    (fun j => (prunedRows df).any (fun r => !(isNa (r.getD j Cell.na))))

/-- The pruned frame in column form, with headers stripped (line 83) and
non-breaking spaces normalised in the cells (line 85). -/
def prunedCols (df : DF) : List (String × List Cell) :=
  (keptIdx df).map
    (fun j => (strTrim (df.headers.getD j ""), (prunedRows df).map (fun r => nbspFix (r.getD j Cell.na))))

def prunedHeaders (df : DF) : List String := (prunedCols df).map (fun c => c.1)

/-- `df[name] = vals`: overwrite an existing column in place, otherwise
append a new column at the end. -/
def setCol (cols : List (String × List Cell)) (nm : String) (vals : List Cell) :
    List (String × List Cell) :=
  if cols.any (fun c => c.1 = nm) then cols.map (fun c => if c.1 = nm then (nm, vals) else c)
  else cols ++ [(nm, vals)]

/-- `df.iloc[:, i]` — positional column access. -/
def colAt (cols : List (String × List Cell)) (i : Nat) : List Cell := (cols.getD i ("", [])).2

/-- Line 88: `df['Organisme'] = df.iloc[:, 0].astype(str)...`. -/
def colsOrg (df : DF) : List (String × List Cell) :=
  setCol (prunedCols df) "Organisme" ((colAt (prunedCols df) 0).map normalizeCell)

/-- Line 90: `df['Resistentie'] = df.iloc[:, 1].astype(str)...`, reading
`iloc[:, 1]` of the frame as it stands after line 88. -/
def colsOrgRes (df : DF) : List (String × List Cell) :=
  setCol (colsOrg df) "Resistentie" ((colAt (colsOrg df) 1).map normalizeCell)

/-- Line 95 `df.loc[:, ~df.columns.duplicated()]`: keep the first column
of each header. -/
def dedupColsAux (seen : List String) : List (String × List Cell) → List (String × List Cell)
  | [] => []
  | c :: cs => if c.1 ∈ seen then dedupColsAux seen cs else c :: dedupColsAux (c.1 :: seen) cs

/-- Lines 92-95: pick the department columns (dropping a trailing column
when the frame's last header is `Organisme`), reorder the frame as
`['Organisme', 'Resistentie'] + afdelingskolommen` and deduplicate. -/
def prepFrame (df : DF) : List (String × List Cell) :=
  let cols := colsOrgRes df
  let hdrs := cols.map (fun c => c.1)
  let afdelingskolommen :=
    if hdrs.getLast? = some "Organisme" then (hdrs.drop 2).dropLast else hdrs.drop 2
  let selected :=
    (["Organisme", "Resistentie"] ++ afdelingskolommen).flatMap
      (fun nm => cols.filter (fun c => c.1 = nm))
  dedupColsAux [] selected

/-- The value columns of the melt (line 98): every column not named by
`id_vars=['Organisme', 'Resistentie']`. -/
def meltValueCols (df : DF) : List (String × List Cell) :=
  (prepFrame df).filter (fun c => !(c.1 == "Organisme" || c.1 == "Resistentie"))

def orgColumn (df : DF) : List Cell :=
  (((prepFrame df).find? (fun c => c.1 == "Organisme")).getD ("", [])).2

def resColumn (df : DF) : List Cell :=
  (((prepFrame df).find? (fun c => c.1 == "Resistentie")).getD ("", [])).2

/-- One output row: melt value plus the indicator flags of lines 109-113
and the period columns of lines 116-117 (the flags and period depend only
on the row, so attaching them per record is the per-row view of the
column-wise source). -/
def mkRecord (org res : Option String) (afd : String) (w : Cell) (jaar maand : Int) :
    LongRecord :=
  let f := indicatorFlags res
  ⟨org, res, afd, w, f.brmo, f.esbl, f.vre, f.mrsa, f.carba, jaar, maand⟩

/-- Lines 98-117: `df.melt(id_vars=['Organisme','Resistentie'],
var_name='Afdeling', value_name='Waarde')`, then the flag and period
columns. Pandas stacks the frame once per value column, in column order;
the frame's row count equals the pruned row count. -/
def meltOutput (df : DF) (jaar maand : Int) : List LongRecord :=
  let nR := (prunedRows df).length
  (meltValueCols df).flatMap (fun c =>
    (List.range nR).map (fun i =>
      mkRecord (asOpt ((orgColumn df).getD i Cell.na)) (asOpt ((resColumn df).getD i Cell.na))
        c.1 (c.2.getD i Cell.na) jaar maand))

/-- A failure inside the `try` of `verwerk_sheet`: positional access to a
missing column (lines 88/90 on a frame with too few columns), or the
explicit `Geen data gevonden in tabel` error of line 106. -/
inductive SheetFault where
  | indexError : SheetFault
  | emptySheet : String → String → SheetFault
deriving DecidableEq

/-- Line 121: every fault is re-raised as
`Fout bij het inlezen van tabel: {bestand}, tabblad: {sheet}, ...`. -/
structure SheetProcessingError where
  bestand : String
  sheet : String
  cause : SheetFault
deriving DecidableEq

/-- The body of `verwerk_sheet`'s `try` block. `df.iloc[:, 0]` on a frame
without columns (line 88) and `df.iloc[:, 1]` on a frame that still has
fewer than two columns after line 88 raise `IndexError`; line 105 raises
when the melt produced no rows. -/
def verwerkBody (df : DF) (bestand sheet : String) (jaar maand : Int) :
    Except SheetFault (List LongRecord) :=
  if (prunedCols df).isEmpty then .error .indexError
  else if (colsOrg df).length < 2 then .error .indexError
  else if (meltOutput df jaar maand).isEmpty then .error (.emptySheet bestand sheet)
  else .ok (meltOutput df jaar maand)

/-- `verwerk_sheet` (lines 45-121): run the body and wrap any failure with
the workbook and sheet names. -/
def verwerk_sheet (df : DF) (bestand sheet : String) (jaar maand : Int) :
    Except SheetProcessingError (List LongRecord) :=
  match verwerkBody df bestand sheet jaar maand with
  | .ok rs => .ok rs
  | .error f => .error ⟨bestand, sheet, f⟩

/-! ### Date extraction (source lines 17-43) -/

/-- The two failure modes of `lees_datum_uit_cel`: the explicit
`Geen datum gevonden in C2` error of line 38, and a failing
`pd.to_datetime(..., format='%d-%m-%Y')` on line 39. Both are re-raised
by line 43 naming the workbook and the worksheet. -/
inductive DateError where
  | missing : String → String → DateError
  | invalid : String → String → DateError
deriving DecidableEq

def isLeap (y : Int) : Bool := (y % 4 == 0 && y % 100 != 0) || (y % 400 == 0)

def daysInMonth (y : Int) (m : Nat) : Nat :=
  if m = 2 then (if isLeap y then 29 else 28)
  else if m = 4 ∨ m = 6 ∨ m = 9 ∨ m = 11 then 30
  else 31

/-- Split a character list on a separator (`'15-03-2024'.split('-')`
shape, used to model `strptime`-style field splitting). -/
def splitOnChar (sep : Char) (l : List Char) : List (List Char) :=
  l.foldr
    (fun c acc =>
      match acc with
      | [] => [[c]]
      | g :: gs => if c = sep then [] :: g :: gs else (c :: g) :: gs)
    [[]]

def charsToNat? (l : List Char) : Option Nat :=
  if l ≠ [] ∧ l.all Char.isDigit then
    some (l.foldl (fun a c => 10 * a + (c.toNat - 48)) 0)
  else none

/-- `pd.to_datetime(s, format='%d-%m-%Y')` on a text value: day, month and
year fields separated by `-`, day and month of one or two digits, year of
at most four digits, validated against the calendar. Timestamp range
limits are not modelled. Returns `(year, month, day)`. -/
def parseDMY (s : String) : Option (Int × Nat × Nat) :=
  match splitOnChar '-' s.data with
  | [ds, ms, ys] =>
    match charsToNat? ds, charsToNat? ms, charsToNat? ys with
    | some d, some m, some y =>
      if 1 ≤ m ∧ m ≤ 12 ∧ 1 ≤ d ∧ d ≤ daysInMonth (Int.ofNat y) m ∧
          ds.length ≤ 2 ∧ ms.length ≤ 2 ∧ ys.length ≤ 4 then
        some (Int.ofNat y, m, d)
      else none
    | _, _, _ => none
  | _ => none

/-- `lees_datum_uit_cel` (lines 17-43) applied to the value found in cell
C2 (`datumcel.iloc[1, 0]`): a missing value raises the line-38 error, a
timestamp is returned as is, a text value is parsed day-month-year, and a
non-date non-text value fails `pd.to_datetime` with the given format.
On success the pair `(datum.year, datum.month)` is returned. -/
def lees_datum_uit_cel (cell : Cell) (sheet bestand : String) :
    Except DateError (Int × Int) :=
  match cell with
  | .na => .error (.missing bestand sheet)
  | .date y m _ => .ok (y, Int.ofNat m)
  | .str s =>
    match parseDMY s with
    | some (y, m, _) => .ok (y, Int.ofNat m)
    | none => .error (.invalid bestand sheet)
  | .num _ => .error (.invalid bestand sheet)

/-! ### Exclusion filtering (source lines 149-195) -/

def verboden_woorden : List String :=
  ["coccen", "staven", "Coagulase-negatieve", "Fluoresc. preparaat", "vergroenend",
   "gekweekt", "BRMO PCR", "ESBL/CPE PCR", "IgG", "IgM"]

def verboden_taxonomie : List String :=
  ["Plasmodium", "C.psittaci", "Q-koorts", "Rotavirus antigeen sneltest",
   "Adenovirus antigeen sneltest", "MRSA PCR sneltest", "MRSA PCR", "MRSA DNA",
   "VRE PCR sneltest"]

/-- Lines 180-187: the three masks combined with `|`. The comma search of
line 184 is case-sensitive in the source; case folding is the identity on
`,`, so the shared case-insensitive search is exact for it. -/
def maskExclusie (o : Option String) : Bool :=
  strContainsOpt o verboden_woorden || strContainsOpt o verboden_taxonomie ||
    strContainsOpt o [","]

/-- `filter_exclusie` (lines 149-195): partition into retained
(`df_behouden = df[~mask_exclusie]`) and excluded
(`df_exclusie = df[mask_exclusie]`). -/
def filter_exclusie (df : List LongRecord) : List LongRecord × List LongRecord :=
  (df.filter (fun r => !(maskExclusie r.organisme)),
   df.filter (fun r => maskExclusie r.organisme))

/-! ### The combining tail of `main` (source lines 197-217) -/

inductive PipelineError where
  | noData : PipelineError
  | combineError : String → PipelineError
deriving DecidableEq

def cellEqZero : Cell → Bool
  | .num 0 => true
  | _ => false

/-- Python resolves the variable named on line 212 at run time; the local
frame there binds only `res_binair` (line 208) and `res_binair_no_0`
(line 209). -/
def lookupVar (nm : String) (env : List (String × List LongRecord)) :
    Option (List LongRecord) :=
  (env.find? (fun v => v.1 == nm)).map (fun v => v.2)

/-- Lines 204-217 of `main`, from the collected per-sheet tables onward:
the `Geen data gevonden` check, `pd.concat` (line 208), the zero-value
filter `res_binair[res_binair['Waarde'] != 0]` (line 209), and line 212,
which applies `filter_exclusie` to the variable named `res_binair_no_o`
(letter o) — a name never assigned, so the lookup fails and the
`except` of line 216 re-raises it as the combine error. -/
def main_combine (alle_data : List (List LongRecord)) :
    Except PipelineError (List LongRecord × List LongRecord) :=
  if alle_data.isEmpty then .error .noData
  else
    let res_binair := alle_data.flatten
    let res_binair_no_0 := res_binair.filter (fun r => !(cellEqZero r.waarde))
    match lookupVar "res_binair_no_o"
        [("res_binair", res_binair), ("res_binair_no_0", res_binair_no_0)] with
    | none => .error (.combineError "NameError: name res_binair_no_o is not defined")
    | some t => .ok (filter_exclusie t)

/-- The specification's notion of matching: the resistance label contains
the trigger as a case-insensitive, unanchored substring. Stated
independently of the search routine so the indicator theorems compare the
two. -/
def ciContains (hay pat : String) : Prop :=
  pat.data.map Char.toLower <:+: hay.data.map Char.toLower

instance (hay pat : String) : Decidable (ciContains hay pat) :=
  inferInstanceAs (Decidable (pat.data.map Char.toLower <:+: hay.data.map Char.toLower))

/-! ### Concrete fixtures used by the witnesses -/

def rSample : LongRecord :=
  ⟨some "Escherichia coli", some "ESBL", "Afdeling A", Cell.num 3,
   true, true, false, false, false, 2024, 3⟩

def rEmptyOrg : LongRecord :=
  ⟨none, none, "Afdeling A", Cell.num 2, false, false, false, false, false, 2024, 3⟩

def rNan : LongRecord :=
  ⟨asOpt (normalizeCell (Cell.str "nan")), asOpt (normalizeCell (Cell.str "nan")),
   "Afdeling A", Cell.num 1, false, false, false, false, false, 2024, 3⟩

def dfC2 : DF :=
  ⟨["Org", "Res", "AfdA", "Organisme"],
   [[Cell.str "Ecoli", Cell.str "ESBL", Cell.num 3, Cell.num 1]]⟩

def rC2 : LongRecord :=
  ⟨some "Ecoli", some "ESBL", "AfdA", Cell.num 3, true, true, false, false, false, 2024, 3⟩

def dfC4 : DF :=
  ⟨["Org", "Res", "AfdA", "AfdB"],
   [[Cell.str "Ecoli", Cell.str "MRSA", Cell.num 1, Cell.num 2],
    [Cell.str "Saureus", Cell.str "VRE", Cell.num 3, Cell.num 4]]⟩

def dfC8 : DF :=
  ⟨["Org", "Res"], [[Cell.str "Ecoli", Cell.str "ESBL"]]⟩

/-! ### Search-routine lemmas -/

theorem charMatch_iff (p c : Char) (hp : p ≠ '.') :
    charMatch p c = true ↔ p.toLower = c.toLower := by
  simp [charMatch, Bool.or_eq_true, beq_iff_eq, hp]

theorem matchHere_iff (p : List Char) (hp : '.' ∉ p) :
    ∀ cs, matchHere p cs = true ↔ p.map Char.toLower <+: cs.map Char.toLower := by
  induction p with
  | nil => intro cs; simp [matchHere, List.nil_prefix]
  | cons a ps ih =>
    intro cs
    have ha : a ≠ '.' := fun h => hp (h ▸ List.mem_cons_self a ps)
    have hps : '.' ∉ ps := fun h => hp (List.mem_cons_of_mem _ h)
    cases cs with
    | nil => simp [matchHere]
    | cons c cs' =>
      simp [matchHere, Bool.and_eq_true, charMatch_iff a c ha, ih hps cs',
        List.cons_prefix_cons]

theorem searchFrom_iff (p : List Char) (hp : '.' ∉ p) :
    ∀ cs, searchFrom p cs = true ↔ p.map Char.toLower <:+: cs.map Char.toLower := by
  intro cs
  induction cs with
  | nil => simp [searchFrom, matchHere_iff p hp [], List.prefix_nil, List.infix_nil]
  | cons c cs' ih =>
    simp [searchFrom, Bool.or_eq_true, matchHere_iff p hp (c :: cs'), ih,
      List.infix_cons_iff]

theorem reContainsCI_iff (s pat : String) (hp : '.' ∉ pat.data) :
    reContainsCI s pat = true ↔ ciContains s pat :=
  searchFrom_iff pat.data hp s.data

/-! ### Claim theorems -/

/-- Claim C1 (code_bug demonstration). Line 212 of the source applies
`filter_exclusie` to the variable `res_binair_no_o` (letter o), which is
never assigned — line 209 assigns `res_binair_no_0` (digit zero). On any
run whose directory yields records, Python raises `NameError`, the
`except` of line 216 re-raises it as the combine error, and the run never
produces the retained/excluded pair — contradicting the claim that the
zero-filtered table is handed to `ExclusionFilter` and the run completes.
Here a one-record corpus reaches line 212 with a non-empty zero-filtered
table yet the pipeline fails. -/
theorem c1_zero_filter_feeds_exclusion_bug :
    main_combine [[rSample]] =
      .error (.combineError "NameError: name res_binair_no_o is not defined") ∧
    ([[rSample]] : List (List LongRecord)).isEmpty = false ∧
    ([[rSample]] : List (List LongRecord)).flatten.filter
      (fun r => !(cellEqZero r.waarde)) = [rSample] := by
  decide

/-- Claim C2: when the last column header of the row/column-pruned data
region equals `Organisme`, no long record is emitted with `afdeling`
equal to that trailing header. (After lines 92-95 put
`['Organisme', 'Resistentie']` first and deduplicate, the melt's value
columns never carry the organism-column label, so the trailing column is
indeed absent from the department set.) -/
theorem c2_trailing_organisme_dropped (df : DF) (jaar maand : Int)
    (h : (prunedHeaders df).getLast? = some "Organisme") :
    ∀ r ∈ meltOutput df jaar maand, r.afdeling ≠ "Organisme" := by
  intro r hr
  have hval : ∀ c ∈ meltValueCols df, c.1 ≠ "Organisme" := by
    intro c hc
    have h2 := (List.mem_filter.mp hc).2
    simp at h2
    exact h2.1
  simp only [meltOutput, List.mem_flatMap, List.mem_map, List.mem_range] at hr
  obtain ⟨c, hc, i, hi, rfl⟩ := hr
  simpa [mkRecord] using hval c hc

theorem c2_trailing_organisme_dropped_witness :
    (prunedHeaders dfC2).getLast? = some "Organisme" ∧ rC2.afdeling ≠ "Organisme" :=
  ⟨by decide, c2_trailing_organisme_dropped dfC2 2024 3 (by decide) rC2 (by decide)⟩

/-- Claim C3: `filter_exclusie` partitions its input completely and
disjointly — the two output lengths sum to the input length, occurrence
counts are preserved across the split, and every input row lands in
exactly one of the retained/excluded tables. -/
theorem c3_partition_complete (df : List LongRecord) :
    (filter_exclusie df).1.length + (filter_exclusie df).2.length = df.length ∧
    ∀ r, (filter_exclusie df).1.count r + (filter_exclusie df).2.count r = df.count r ∧
      (r ∈ df →
        (r ∈ (filter_exclusie df).1 ∧ r ∉ (filter_exclusie df).2) ∨
        (r ∈ (filter_exclusie df).2 ∧ r ∉ (filter_exclusie df).1)) := by
  have hperm := List.filter_append_perm (fun r => maskExclusie r.organisme) df
  refine ⟨?_, fun r => ⟨?_, fun hmem => ?_⟩⟩
  · have hlen := hperm.length_eq
    simp only [List.length_append] at hlen
    simp only [filter_exclusie]
    omega
  · have hcnt := hperm.count_eq r
    simp only [List.count_append] at hcnt
    simp only [filter_exclusie]
    omega
  · cases hm : maskExclusie r.organisme with
    | false =>
      left
      exact ⟨by simp [filter_exclusie, List.mem_filter, hmem, hm],
        by simp [filter_exclusie, List.mem_filter, hm]⟩
    | true =>
      right
      exact ⟨by simp [filter_exclusie, List.mem_filter, hmem, hm],
        by simp [filter_exclusie, List.mem_filter, hm]⟩

theorem c3_partition_complete_witness :
    rSample ∈ [rSample] ∧
    ((rSample ∈ (filter_exclusie [rSample]).1 ∧ rSample ∉ (filter_exclusie [rSample]).2) ∨
     (rSample ∈ (filter_exclusie [rSample]).2 ∧ rSample ∉ (filter_exclusie [rSample]).1)) :=
  ⟨by decide, ((c3_partition_complete [rSample]).2 rSample).2 (by decide)⟩

/-- Claim C4: the melt of a worksheet whose pruned, deduplicated data
region has `R` data rows and `D` department columns emits exactly `R * D`
long records (before any zero-value filtering). -/
theorem c4_melt_count (df : DF) (jaar maand : Int) (R D : Nat)
    (hR : (prunedRows df).length = R) (hD : (meltValueCols df).length = D) :
    (meltOutput df jaar maand).length = R * D := by
  subst hR hD
  have hsum : ∀ (l : List (String × List Cell)) (n : Nat),
      (l.map (fun _ => n)).sum = l.length * n := by
    intro l n
    induction l with
    | nil => simp
    | cons a t ih => simp [ih, Nat.succ_mul, Nat.add_comm]
  simp only [meltOutput, List.length_flatMap, Function.comp_def, List.length_map,
    List.length_range]
  rw [hsum, Nat.mul_comm]

theorem c4_melt_count_witness :
    (prunedRows dfC4).length = 2 ∧ (meltValueCols dfC4).length = 2 ∧
    (meltOutput dfC4 2024 3).length = 2 * 2 :=
  ⟨by decide, by decide, c4_melt_count dfC4 2024 3 2 2 (by decide) (by decide)⟩

/-- Claim C5: for every non-empty resistance label, each indicator flag is
true iff the label contains the corresponding trigger as a
case-insensitive unanchored substring; the BRMO trigger is the
disjunction of the five substrings, so any label containing `ESBL` sets
both `ESBL` and `BRMO`. -/
theorem c5_indicator_flags (s : String) (hs : s ≠ "") :
    ((indicatorFlags (some s)).esbl = true ↔ ciContains s "ESBL") ∧
    ((indicatorFlags (some s)).vre = true ↔ ciContains s "VRE") ∧
    ((indicatorFlags (some s)).mrsa = true ↔ ciContains s "MRSA") ∧
    ((indicatorFlags (some s)).carba = true ↔ ciContains s "CARBA") ∧
    ((indicatorFlags (some s)).brmo = true ↔
      (ciContains s "BRMO" ∨ ciContains s "ESBL" ∨ ciContains s "VRE" ∨
        ciContains s "MRSA" ∨ ciContains s "CARBA")) ∧
    (ciContains s "ESBL" →
      (indicatorFlags (some s)).esbl = true ∧ (indicatorFlags (some s)).brmo = true) := by
  have hB := reContainsCI_iff s "BRMO" (by decide)
  have hE := reContainsCI_iff s "ESBL" (by decide)
  have hV := reContainsCI_iff s "VRE" (by decide)
  have hM := reContainsCI_iff s "MRSA" (by decide)
  have hC := reContainsCI_iff s "CARBA" (by decide)
  refine ⟨?_, ?_, ?_, ?_, ?_, ?_⟩ <;>
    simp [indicatorFlags, strContainsOpt, Bool.or_eq_true, hB, hE, hV, hM, hC] <;>
    tauto

theorem c5_indicator_flags_witness :
    (indicatorFlags (some "ESBL+")).esbl = true ∧ (indicatorFlags (some "ESBL+")).brmo = true :=
  (c5_indicator_flags "ESBL+" (by decide)).2.2.2.2.2 (by decide)

/-- Claim C6: a resistance cell that is missing, or whose raw text trims
to the empty string, normalises to an absent label, and the derived
indicator flags are all false; the derivation is a total function, so no
error is raised for the missing label. -/
theorem c6_absent_resistance_flags (c : Cell)
    (h : c = Cell.na ∨ ∃ s, c = Cell.str s ∧ strTrim s = "") :
    asOpt (normalizeCell c) = none ∧
    indicatorFlags (asOpt (normalizeCell c)) = ⟨false, false, false, false, false⟩ := by
  have hnone : asOpt (normalizeCell c) = none := by
    rcases h with h | ⟨s, rfl, hs⟩
    · subst h; rfl
    · have hnan : s ≠ "nan" := by
        rintro rfl
        exact absurd hs (by decide)
      simp [normalizeCell, cellToStr, hnan, hs, asOpt]
  exact ⟨hnone, by rw [hnone]; rfl⟩

theorem c6_absent_resistance_flags_witness :
    (Cell.str "  " = Cell.na ∨ ∃ s, Cell.str "  " = Cell.str s ∧ strTrim s = "") ∧
    (asOpt (normalizeCell (Cell.str "  ")) = none ∧
      indicatorFlags (asOpt (normalizeCell (Cell.str "  "))) =
        ⟨false, false, false, false, false⟩) :=
  ⟨Or.inr ⟨"  ", rfl, by decide⟩,
   c6_absent_resistance_flags (Cell.str "  ") (Or.inr ⟨"  ", rfl, by decide⟩)⟩

/-- Claim C7: a blank date cell fails with the missing-date error naming
the workbook and that exact worksheet; a present text value is parsed
day-month-year, parse failure yields the invalid-date error naming both,
and success returns the `(year, month)` pair — exhibited concretely on
`15-03-2024`, which reads as 15 March 2024. -/
theorem c7_date_extraction (cell : Cell) (sheet bestand : String) :
    (cell = Cell.na →
      lees_datum_uit_cel cell sheet bestand = .error (.missing bestand sheet)) ∧
    (∀ s, cell = Cell.str s → parseDMY s = none →
      lees_datum_uit_cel cell sheet bestand = .error (.invalid bestand sheet)) ∧
    (∀ s y m d, cell = Cell.str s → parseDMY s = some (y, m, d) →
      lees_datum_uit_cel cell sheet bestand = .ok (y, Int.ofNat m)) ∧
    lees_datum_uit_cel (Cell.str "15-03-2024") sheet bestand = .ok (2024, 3) := by
  refine ⟨?_, ?_, ?_, rfl⟩
  · rintro rfl; rfl
  · rintro s rfl hp
    simp [lees_datum_uit_cel, hp]
  · rintro s y m d rfl hp
    simp [lees_datum_uit_cel, hp]

theorem c7_date_extraction_witness :
    lees_datum_uit_cel Cell.na "Blad1" "boek.xlsx" = .error (.missing "boek.xlsx" "Blad1") :=
  (c7_date_extraction Cell.na "Blad1" "boek.xlsx").1 rfl

/-- Claim C8: when the reshape of a worksheet produces zero long records
(and the earlier positional column accesses succeeded), `verwerk_sheet`
fails with the empty-sheet error naming the workbook and worksheet,
wrapped — like every failure of the body — in a processing error carrying
exactly those names and the underlying cause. -/
theorem c8_empty_sheet_error (df : DF) (bestand sheet : String) (jaar maand : Int) :
    ((prunedCols df).isEmpty = false → 2 ≤ (colsOrg df).length →
      meltOutput df jaar maand = [] →
      verwerk_sheet df bestand sheet jaar maand =
        .error ⟨bestand, sheet, .emptySheet bestand sheet⟩) ∧
    (∀ e, verwerk_sheet df bestand sheet jaar maand = .error e →
      e.bestand = bestand ∧ e.sheet = sheet) := by
  constructor
  · intro h1 h2 h3
    have hlt : ¬((colsOrg df).length < 2) := by omega
    simp [verwerk_sheet, verwerkBody, h1, hlt, h3]
  · intro e he
    unfold verwerk_sheet at he
    cases hb : verwerkBody df bestand sheet jaar maand with
    | ok rs => simp [hb] at he
    | error f =>
      rw [hb] at he
      injection he with h
      rw [← h]
      exact ⟨rfl, rfl⟩

theorem c8_empty_sheet_error_witness :
    verwerk_sheet dfC8 "boek.xlsx" "Blad1" 2024 3 =
      .error ⟨"boek.xlsx", "Blad1", .emptySheet "boek.xlsx" "Blad1"⟩ :=
  (c8_empty_sheet_error dfC8 "boek.xlsx" "Blad1" 2024 3).1 (by decide) (by decide) (by decide)

/-- Claim C9: a row whose `organisme` is absent or empty matches none of
the three exclusion predicates, so `filter_exclusie` puts it in the
retained partition and not in the excluded one. -/
theorem c9_empty_organisme_retained (df : List LongRecord) (r : LongRecord)
    (hmem : r ∈ df) (h : r.organisme = none ∨ r.organisme = some "") :
    maskExclusie r.organisme = false ∧
    r ∈ (filter_exclusie df).1 ∧ r ∉ (filter_exclusie df).2 := by
  have hmask : maskExclusie r.organisme = false := by
    rcases h with h | h <;> rw [h]
    · rfl
    · decide
  refine ⟨hmask, ?_, ?_⟩
  · simp [filter_exclusie, List.mem_filter, hmem, hmask]
  · simp [filter_exclusie, List.mem_filter, hmask]

theorem c9_empty_organisme_retained_witness :
    rEmptyOrg ∈ [rEmptyOrg] ∧
    (maskExclusie rEmptyOrg.organisme = false ∧
      rEmptyOrg ∈ (filter_exclusie [rEmptyOrg]).1 ∧
      rEmptyOrg ∉ (filter_exclusie [rEmptyOrg]).2) :=
  ⟨by decide,
   c9_empty_organisme_retained [rEmptyOrg] rEmptyOrg (by decide) (Or.inl (by decide))⟩

/-- Claim C10: a cell whose string conversion is exactly the lower-case
text `nan` is treated identically to a blank cell: it normalises to an
absent field, the indicator flags derived from it are all false, and a
record carrying it as `organisme` is retained by `filter_exclusie`. -/
theorem c10_nan_text_is_absent :
    normalizeCell (Cell.str "nan") = Cell.na ∧
    normalizeCell Cell.na = Cell.na ∧
    asOpt (normalizeCell (Cell.str "nan")) = none ∧
    indicatorFlags (asOpt (normalizeCell (Cell.str "nan"))) =
      ⟨false, false, false, false, false⟩ ∧
    maskExclusie (asOpt (normalizeCell (Cell.str "nan"))) = false ∧
    filter_exclusie [rNan] = ([rNan], []) := by
  decide

end ZH
